import Mathlib

/-!
Verification of the asynchronous renderer-to-display pipeline of the
`module_openvr` (osp360) application.

The development shallowly embeds the parts of the source that the claims
are about:

* `AsyncRenderer` (src/main.cpp, lines 256-305, and the identical class in
  the two unnamed variant files): a background render thread repeatedly
  renders a frame, then, holding `pixel_lock`, copies the full frame into
  the `pixels` buffer with `memcpy` and stores `true` into the atomic
  `new_pixels`; the display thread polls `new_pixels` without the lock and,
  when it is true, calls `map_fb` (locks, clears the flag, returns the
  buffer) followed by `unmap_fb` (unlocks).  The concurrency is embedded as
  an interleaving transition system in which the writer's `memcpy` is
  decomposed into one step per pixel, so that the mutual-exclusion argument
  is real: without the lock discipline a reader could observe a mix of two
  writes.
* `AsyncRendererSg::run` (src/main.cpp, lines 314-346): the scene-graph
  variant of the render loop, embedded as a pure per-iteration function.
* The display loop of `main` (src/main.cpp, lines 614-691), embedded as a
  pure per-iteration function over the interactive-camera state.
* The fragment shaders `fsrc` of the three variants and the panoramic
  texture-sampling formula, embedded over the reals.
* `parseCommandLineSG` (src/main.cpp, lines 138-208): the ordered
  exception-swallowed type coercions of `-node:...=value` overrides.
* The exit-code control flow of `main` (src/main.cpp, lines 361-702).
-/

/-! ### The Pixel Relay: `AsyncRenderer` as an interleaving transition system

State components mirror the fields of `AsyncRenderer` (src/main.cpp,
lines 256-276): `pixels` (the `std::vector<uint32_t>`), `new_pixels` and
`should_quit` (the two `std::atomic<bool>`), plus a model of `pixel_lock`
(who currently owns the mutex) and program counters for the two threads.
`history` is a ghost component recording every fully completed write, used
to state the no-tearing property.  The buffer size `n` is a parameter; the
application instantiates it with `PANORAMIC_WIDTH * PANORAMIC_HEIGHT`.
-/

/-- `PANORAMIC_HEIGHT` from src/main.cpp line 253. -/
def PANORAMIC_HEIGHT : Nat := 2048

/-- `PANORAMIC_WIDTH = 2 * PANORAMIC_HEIGHT` from src/main.cpp line 254. -/
def PANORAMIC_WIDTH : Nat := 2 * PANORAMIC_HEIGHT

/-- Which thread currently owns `pixel_lock`. -/
inductive Owner where
  | writer
  | reader
deriving DecidableEq

/-- Program counter of the render (writer) thread inside
`AsyncRenderer::run` (src/main.cpp lines 295-305).
`copying f k` means the thread holds the lock and has `memcpy`-ed the
first `k` pixels of the freshly rendered frame `f` into the buffer. -/
inductive WriterPC where
  | idle
  | copying (f : List Nat) (k : Nat)
  | unlocking
  | exited
deriving DecidableEq

/-- Program counter of the display (reader) thread with respect to the
relay: it is outside, or has observed `new_pixels == true` and is about to
call `map_fb` (src/main.cpp line 660), or is between `map_fb` and
`unmap_fb`. -/
inductive ReaderPC where
  | outside
  | wantMap
  | mapped
deriving DecidableEq

/-- The shared state of `AsyncRenderer` together with both threads'
program counters and the ghost `history` of completed writes. -/
structure RelayState where
  pixels : List Nat
  new_pixels : Bool
  should_quit : Bool
  lock : Option Owner
  wpc : WriterPC
  rpc : ReaderPC
  history : List (List Nat)
deriving DecidableEq

/-- The state set up by `AsyncRenderer::AsyncRenderer` (src/main.cpp
lines 278-282): both atomics `false`, the buffer zero-filled with `n`
pixels, the mutex free, no write completed yet. -/
def initState (n : Nat) : RelayState :=
  { pixels := List.replicate n 0
    new_pixels := false
    should_quit := false
    lock := none
    wpc := WriterPC.idle
    rpc := ReaderPC.outside
    history := [] }

/-- `new_pixels.load()`: the lock-free poll the display loop performs
each iteration (src/main.cpp line 660). -/
def hasNewFrame (s : RelayState) : Bool :=
  s.new_pixels

/-- The frame the buffer should contain when no copy is in progress: the
newest completed write, or the constructor's zero fill if none. -/
def lastFrame (n : Nat) (h : List (List Nat)) : List Nat :=
  h.getLast?.getD (List.replicate n 0)

/-- Transition labels of the relay system. -/
inductive Label where
  | render (f : List Nat)
  | copy
  | publish
  | unlockW
  | wexit
  | pollTrue
  | pollFalse
  | mapFb
  | unmapFb
  | setQuit
deriving DecidableEq

/-- Labels of steps executed by the render (writer) thread. -/
def isWriterLabel : Label → Bool
  | Label.render _ => true
  | Label.copy => true
  | Label.publish => true
  | Label.unlockW => true
  | Label.wexit => true
  | _ => false

/-- One interleaved step of the two threads (and of the environment
setting the shutdown flag, modelling `~AsyncRenderer`).  Writer steps
follow `AsyncRenderer::run` (src/main.cpp lines 295-305): the loop head
checks `should_quit`; `ospRenderFrame` produces an arbitrary frame `f`
and the `lock_guard` acquires the mutex; the `memcpy` proceeds one pixel
at a time while the lock is held; after the last pixel, `new_pixels`
is stored `true` (still under the lock) and the write is recorded in the
ghost history; then the `lock_guard` releases the mutex.  Reader steps
follow the display loop (src/main.cpp lines 660-664) and
`map_fb`/`unmap_fb` (lines 287-294). -/
inductive Step (n : Nat) : RelayState → Label → RelayState → Prop where
  | render {s : RelayState} {f : List Nat}
      (hq : s.should_quit = false) (hw : s.wpc = WriterPC.idle)
      (hl : s.lock = none) (hf : f.length = n) :
      Step n s (Label.render f)
        { s with lock := some Owner.writer, wpc := WriterPC.copying f 0 }
  | copy {s : RelayState} {f : List Nat} {k : Nat}
      (hw : s.wpc = WriterPC.copying f k) (hk : k < n) :
      Step n s Label.copy
        { s with pixels := s.pixels.set k (f.getD k 0),
                 wpc := WriterPC.copying f (k + 1) }
  | publish {s : RelayState} {f : List Nat}
      (hw : s.wpc = WriterPC.copying f n) :
      Step n s Label.publish
        { s with new_pixels := true, history := s.history ++ [f],
                 wpc := WriterPC.unlocking }
  | unlockW {s : RelayState}
      (hw : s.wpc = WriterPC.unlocking) :
      Step n s Label.unlockW
        { s with lock := none, wpc := WriterPC.idle }
  | wexit {s : RelayState}
      (hq : s.should_quit = true) (hw : s.wpc = WriterPC.idle) :
      Step n s Label.wexit { s with wpc := WriterPC.exited }
  | pollTrue {s : RelayState}
      (hr : s.rpc = ReaderPC.outside) (hp : s.new_pixels = true) :
      Step n s Label.pollTrue { s with rpc := ReaderPC.wantMap }
  | pollFalse {s : RelayState}
      (hr : s.rpc = ReaderPC.outside) (hp : s.new_pixels = false) :
      Step n s Label.pollFalse s
  | mapFb {s : RelayState}
      (hr : s.rpc = ReaderPC.wantMap) (hl : s.lock = none) :
      Step n s Label.mapFb
        { s with lock := some Owner.reader, new_pixels := false,
                 rpc := ReaderPC.mapped }
  | unmapFb {s : RelayState}
      (hr : s.rpc = ReaderPC.mapped) :
      Step n s Label.unmapFb
        { s with lock := none, rpc := ReaderPC.outside }
  | setQuit {s : RelayState} :
      Step n s Label.setQuit { s with should_quit := true }

/-- States reachable from the freshly constructed `AsyncRenderer`. -/
inductive Reach (n : Nat) : RelayState → Prop where
  | init : Reach n (initState n)
  | step {s s' : RelayState} {l : Label} :
      Reach n s → Step n s l s' → Reach n s'

/-- Executions all of whose steps avoid the labels satisfying `bad`. -/
inductive StepsExcept (n : Nat) (bad : Label → Prop) :
    RelayState → RelayState → Prop where
  | refl (s : RelayState) : StepsExcept n bad s s
  | tail {s s' s'' : RelayState} {l : Label} :
      StepsExcept n bad s s' → Step n s' l s'' → ¬ bad l →
      StepsExcept n bad s s''

/-- A chain of exactly `k` steps, all taken by the render thread. -/
inductive WriterChain (n : Nat) : Nat → RelayState → RelayState → Prop where
  | refl (s : RelayState) : WriterChain n 0 s s
  | head {s s' s'' : RelayState} {l : Label} {k : Nat} :
      Step n s l s' → isWriterLabel l = true → WriterChain n k s' s'' →
      WriterChain n (k + 1) s s''

/-! ### The relay invariant -/

/-- The inductive invariant of the relay: lock ownership matches the two
program counters, a copy in progress is a prefix of the incoming frame
glued to a suffix of the newest completed frame, the buffer equals the
newest completed frame whenever no copy is in progress, the new-frame
flag and a reader past its poll imply at least one completed write, and
all buffers have length `n`. -/
structure RelayInv (n : Nat) (s : RelayState) : Prop where
  copyInv : ∀ f k, s.wpc = WriterPC.copying f k →
    s.lock = some Owner.writer ∧ k ≤ n ∧ f.length = n ∧
    s.pixels = f.take k ++ (lastFrame n s.history).drop k
  unlockInv : s.wpc = WriterPC.unlocking →
    s.lock = some Owner.writer ∧ s.pixels = lastFrame n s.history
  idleInv : s.wpc = WriterPC.idle ∨ s.wpc = WriterPC.exited →
    s.pixels = lastFrame n s.history
  readerLock : s.rpc = ReaderPC.mapped → s.lock = some Owner.reader
  flagHist : s.new_pixels = true → s.history ≠ []
  rpcHist : s.rpc = ReaderPC.wantMap ∨ s.rpc = ReaderPC.mapped →
    s.history ≠ []
  pixLen : s.pixels.length = n
  histLen : ∀ f ∈ s.history, f.length = n

/-! ### The scene-graph render loop: `AsyncRendererSg::run`

src/main.cpp lines 314-346.  One loop iteration is embedded as a pure
function; `sg::TimeStamp` is modelled as a strictly increasing counter
drawn from a `clock` field, and the traversals and relay operations the
iteration performs are recorded in an action trace. -/

/-- The observable actions of one `AsyncRendererSg::run` iteration, in
program order: the `verify` and `commit` traversals, the `render`
traversal, `sgFBptr->map()`, the `lock_guard` acquisition, the `memcpy`
into `pixels`, the `new_pixels.store(true)`, `sgFBptr->unmap(data)`, and
the `lock_guard` release at the end of the iteration's scope. -/
inductive SgAction where
  | verifyT
  | commitT
  | renderT
  | mapT
  | lockT
  | memcpyT
  | flagT
  | unmapT
  | unlockT
deriving DecidableEq

/-- State of `AsyncRendererSg` seen by its `run` loop (src/main.cpp lines
307-357): the inherited `should_quit` atomic, the scene graph's
`childrenLastModified()` stamp, the `lastRTime` member, the
function-local `static bool once`, the global timestamp counter, the
relay buffer and flag, and the ghost trace of performed actions. -/
structure SgState where
  shouldQuit : Bool
  childrenLastModified : Nat
  lastRTime : Nat
  once : Bool
  clock : Nat
  pixels : List Nat
  newPixels : Bool
  trace : List SgAction
deriving DecidableEq

/-- `sg::TimeStamp()`: a fresh timestamp strictly newer than every
previously drawn one. -/
def sgTimeStamp (c : Nat) : Nat := c + 1

/-- The conditional `verify`/`commit` traversals of src/main.cpp lines
330-333: run iff `sgRenderer->childrenLastModified() > lastRTime || !once`. -/
def sgCommitActions (s : SgState) : List SgAction :=
  if s.childrenLastModified > s.lastRTime ∨ s.once = false then
    [SgAction.verifyT, SgAction.commitT]
  else []

/-- One iteration of the `AsyncRendererSg::run` loop body (src/main.cpp
lines 316-345).  `frame` is the content of the scene-graph frame buffer
produced by the `render` traversal and returned by `sgFBptr->map()`. -/
def sgRunIter (frame : List Nat) (s : SgState) : SgState :=
  { s with
    trace := s.trace ++ sgCommitActions s ++
      [SgAction.renderT, SgAction.mapT, SgAction.lockT, SgAction.memcpyT,
       SgAction.flagT, SgAction.unmapT, SgAction.unlockT]
    once := true
    lastRTime := sgTimeStamp s.clock
    clock := sgTimeStamp s.clock
    pixels := frame
    newPixels := true }

/-- The `while (!should_quit.load())` loop of `AsyncRendererSg::run`
(src/main.cpp line 315), fueled by the list of frames the external
renderer would produce. -/
def sgRun : List (List Nat) → SgState → SgState
  | [], s => s
  | f :: rest, s => if s.shouldQuit then s else sgRun rest (sgRunIter f s)

/-! ### The display loop's interactive-camera state machine

src/main.cpp lines 614-691.  One iteration of the `while (!quit)` loop is
embedded as a pure function on the camera/timestamp state; only the parts
the claims are about are retained (event polling with its break-on-first
behaviour, the camera reversion check, and the new-pixels texture upload
which refreshes `lastRenderTime`). -/

/-- A 3-float vector (`ospcommon::vec3f`), with exact rationals standing
in for the floats. -/
structure Vec3q where
  x : ℚ
  y : ℚ
  z : ℚ
deriving DecidableEq

/-- Componentwise `+=` on `ospcommon::vec3f`. -/
def Vec3q.add (a b : Vec3q) : Vec3q :=
  ⟨a.x + b.x, a.y + b.y, a.z + b.z⟩

/-- `vec3f * float` scaling. -/
def Vec3q.smul (c : ℚ) (a : Vec3q) : Vec3q :=
  ⟨c * a.x, c * a.y, c * a.z⟩

/-- Which camera node is attached as `renderer["camera"]`. -/
inductive CamSel where
  | panoramic
  | perspective
deriving DecidableEq

/-- The SDL events the display loop distinguishes (src/main.cpp lines
621-651): window close, Escape key-down, Up key-down, Down key-down, and
everything else (ignored). -/
inductive SdlEvent where
  | quitEv
  | escKey
  | upKey
  | downKey
  | otherEv
deriving DecidableEq

/-- The display-loop state: the `quit`, `moved` and `interactiveCamera`
booleans, the attached camera, the perspective camera's `pos`/`dir`, the
panoramic camera's `pos`, whether the panoramic camera has been marked
modified, the `lastRenderTime`/`lastUpdateTime` timestamps and the global
timestamp counter, and the relay's new-pixels flag. -/
structure DispState where
  quit : Bool
  moved : Bool
  interactiveCamera : Bool
  activeCam : CamSel
  perspPos : Vec3q
  perspDir : Vec3q
  panPos : Vec3q
  panoModified : Bool
  lastRenderTime : Nat
  lastUpdateTime : Nat
  clock : Nat
  newPixels : Bool
deriving DecidableEq

/-- The body of the `SDLK_UP` / `SDLK_DOWN` key-down handlers
(src/main.cpp lines 626-651): attach the perspective camera, advance its
position along its view direction by `stepsize` (`5.f` or `-5.f`),
mirror the new position onto the panoramic camera, set `moved` and
`interactiveCamera`, record a fresh `lastUpdateTime`. -/
def moveCamera (stepsize : ℚ) (s : DispState) : DispState :=
  let eye := Vec3q.add s.perspPos (Vec3q.smul stepsize s.perspDir)
  { s with
    activeCam := CamSel.perspective
    perspPos := eye
    panPos := eye
    moved := true
    interactiveCamera := true
    lastUpdateTime := sgTimeStamp s.clock
    clock := sgTimeStamp s.clock }

/-- The `while (SDL_PollEvent(&e))` loop (src/main.cpp lines 621-652):
quit events and Escape set `quit` and break; Up/Down key-downs move the
camera and break; all other events are skipped. -/
def pollEvents : List SdlEvent → DispState → DispState
  | [], s => s
  | e :: rest, s =>
    match e with
    | SdlEvent.quitEv => { s with quit := true }
    | SdlEvent.escKey => { s with quit := true }
    | SdlEvent.upKey => moveCamera 5 s
    | SdlEvent.downKey => moveCamera (-5) s
    | SdlEvent.otherEv => pollEvents rest s

/-- The camera-reversion condition of src/main.cpp line 653:
`!moved && interactiveCamera && lastRenderTime > (lastUpdateTime+5)`. -/
def revertCond (s : DispState) : Bool :=
  !s.moved && s.interactiveCamera &&
    decide (s.lastRenderTime > s.lastUpdateTime + 5)

/-- The camera-reversion check of src/main.cpp lines 653-659: when
`revertCond` holds, reattach the panoramic camera, mark it (and its
children) modified, and clear `interactiveCamera`. -/
def revertCheck (s : DispState) : DispState :=
  if revertCond s then
    { s with
      activeCam := CamSel.panoramic
      panoModified := true
      interactiveCamera := false }
  else s

/-- The texture-upload check of src/main.cpp lines 660-667: if the relay
has new pixels, upload them (clearing the flag through `map_fb`) and
record a fresh `lastRenderTime`. -/
def uploadCheck (s : DispState) : DispState :=
  if s.newPixels then
    { s with
      newPixels := false
      lastRenderTime := sgTimeStamp s.clock
      clock := sgTimeStamp s.clock }
  else s

/-- One iteration of the display loop (src/main.cpp lines 618-691):
reset the local `moved`, poll events, run the reversion check, then the
upload check.  The drawing and buffer swap do not touch this state. -/
def dispIter (events : List SdlEvent) (s : DispState) : DispState :=
  uploadCheck (revertCheck (pollEvents events { s with moved := false }))

/-! ### The fragment shaders' panoramic sampling formulas

`fsrc` in src/main.cpp lines 85-101, src/unnamed/part_001 lines 68-84 and
src/unnamed/part_000 lines 69-85: the GLSL expressions are embedded over
the reals, applied to the already-normalized direction vector `dir`
(components `(x, y, z)`). -/

/-- GLSL's two-argument `atan(y, x)`: the angle of the point `(x, y)` in
`[-pi, pi]`. -/
noncomputable def glslAtan2 (y x : ℝ) : ℝ :=
  if 0 < x then Real.arctan (y / x)
  else if x < 0 ∧ 0 ≤ y then Real.arctan (y / x) + Real.pi
  else if x < 0 then Real.arctan (y / x) - Real.pi
  else if 0 < y then Real.pi / 2
  else if y < 0 then -(Real.pi / 2)
  else 0

/-- The `(u, v)` computed by `fsrc` of the scene-graph viewer
(src/main.cpp lines 97-98):
`u = (atan(dir.z, dir.x) + PI/2) / (2*PI)`, `v = acos(dir.y) / PI`. -/
noncomputable def fsrcUV_sg (d : ℝ × ℝ × ℝ) : ℝ × ℝ :=
  ((glslAtan2 d.2.2 d.1 + Real.pi / 2) / (2 * Real.pi),
   Real.arccos d.2.1 / Real.pi)

/-- The `(u, v)` computed by `fsrc` of the SDL/OpenVR viewer
(src/unnamed/part_001 lines 80-81):
`u = (atan(dir.z, dir.x) + PI/2) / (2*PI)`, `v = acos(dir.y) / PI`. -/
noncomputable def fsrcUV_vr (d : ℝ × ℝ × ℝ) : ℝ × ℝ :=
  ((glslAtan2 d.2.2 d.1 + Real.pi / 2) / (2 * Real.pi),
   Real.arccos d.2.1 / Real.pi)

/-- The `(u, v)` computed by `fsrc` of the GLFW desktop viewer
(src/unnamed/part_000 lines 81-82):
`u = (atan(dir.y, dir.x) + PI/2) / (2*PI)`, `v = acos(dir.z) / PI`. -/
noncomputable def fsrcUV_glfw (d : ℝ × ℝ × ℝ) : ℝ × ℝ :=
  ((glslAtan2 d.2.1 d.1 + Real.pi / 2) / (2 * Real.pi),
   Real.arccos d.2.2 / Real.pi)

/-- Modelled from the spec: the texture-sampling convention of spec
section 4.3, "given a normalized direction vector `d` sampled from the
cube's interior, texture coordinates are
`u = (atan2(d.z, d.x) + pi/2) / (2 pi)`, `v = acos(d.y) / pi`". -/
noncomputable def specSamplingUV (d : ℝ × ℝ × ℝ) : ℝ × ℝ :=
  ((glslAtan2 d.2.2 d.1 + Real.pi / 2) / (2 * Real.pi),
   Real.arccos d.2.1 / Real.pi)

/-! ### Command-line node-override coercion: `parseCommandLineSG`

src/main.cpp lines 138-208.  The six `try { ... node.valueAs<T>();
node.setValue(...); } catch(...) {}` blocks are embedded as an ordered
fold of optional coercions: `valueAs<T>()` throws (the coercion yields
`none`) unless the target node's declared value type is exactly `T`;
every thrown exception is swallowed and no message is printed. -/

/-- The value held by the target `sg::Node`, which also fixes its
declared type for `valueAs<T>`. `vOther` stands for any node whose value
is none of the six attempted types. -/
inductive NodeValue where
  | vString (s : String)
  | vFloat (q : ℚ)
  | vInt (i : Int)
  | vBool (b : Bool)
  | vVec3f (v : ℚ × ℚ × ℚ)
  | vVec2i (v : Int × Int)
  | vOther
deriving DecidableEq

/-- The results of the `std::stringstream` extractions the six blocks
perform on the override's value string (C++ stream extraction does not
throw; a failed extraction value-initializes its target, so each
extraction always yields a value). -/
structure ParsedValue where
  asString : String
  asFloat : ℚ
  asInt : Int
  asBool : Bool
  asVec3f : ℚ × ℚ × ℚ
  asVec2i : Int × Int

/-- The six coercion types attempted by src/main.cpp lines 167-205. -/
inductive CoerceType where
  | tString
  | tFloat
  | tInt
  | tBool
  | tVec3f
  | tVec2i
deriving DecidableEq

/-- One `try` block: `node.valueAs<T>()` succeeds (and `setValue`
replaces the node's value with the extracted one) exactly when the
node's declared type is `T`; otherwise the thrown exception is caught
and the block leaves the node untouched. -/
def tryCoerce (t : CoerceType) (p : ParsedValue) (node : NodeValue) :
    Option NodeValue :=
  match t, node with
  | CoerceType.tString, NodeValue.vString _ => some (NodeValue.vString p.asString)
  | CoerceType.tFloat, NodeValue.vFloat _ => some (NodeValue.vFloat p.asFloat)
  | CoerceType.tInt, NodeValue.vInt _ => some (NodeValue.vInt p.asInt)
  | CoerceType.tBool, NodeValue.vBool _ => some (NodeValue.vBool p.asBool)
  | CoerceType.tVec3f, NodeValue.vVec3f _ => some (NodeValue.vVec3f p.asVec3f)
  | CoerceType.tVec2i, NodeValue.vVec2i _ => some (NodeValue.vVec2i p.asVec2i)
  | _, _ => none

/-- The order in which src/main.cpp lines 167-205 attempt the
coercions: string, float, int, bool, 3-float-vector, 2-int-vector. -/
def coerceAttempts : List CoerceType :=
  [CoerceType.tString, CoerceType.tFloat, CoerceType.tInt,
   CoerceType.tBool, CoerceType.tVec3f, CoerceType.tVec2i]

/-- The whole coercion cascade applied to one `-path=value` override:
each block runs in order on the node as left by the previous blocks, a
failed block changes nothing, and the returned list of error messages
models what the cascade prints (the empty catch blocks print nothing). -/
def applyOverride (p : ParsedValue) (node : NodeValue) :
    NodeValue × List String :=
  (coerceAttempts.foldl (fun acc t => (tryCoerce t p acc).getD acc) node, [])

/-! ### Exit-code control flow of `main`

src/main.cpp lines 361-702, desktop (non-`OPENVR_ENABLED`) build.  Each
fallible startup step is an input boolean; `quitEventually` states that
the event stream eventually delivers a window-close event or an Escape
key press. -/

/-- The outcomes of the fallible steps `main` runs through, in program
order: the `argc < 2` check (line 362), `SDL_Init` (line 366),
`SDL_CreateWindow` (line 376), `SDL_GL_CreateContext` (line 382, result
never checked), `gl3wInit` (line 385, failure throws), `tinyobj::LoadObj`
(line 513), shader compile/link (line 600, failure throws), and the
event loop. -/
structure MainInputs where
  argc : Nat
  sdlInitOk : Bool
  windowOk : Bool
  ctxOk : Bool
  gl3wOk : Bool
  loadObjOk : Bool
  shaderOk : Bool
  quitEventually : Bool
deriving DecidableEq

/-- How the process ends: `exit n` for a `return n` from `main`,
`thrown` for an uncaught `std::runtime_error` (which aborts the process
without reaching a `return`), `runsForever` if no quit event ever
arrives. -/
inductive ExitOutcome where
  | exit (code : Nat)
  | thrown
  | runsForever
deriving DecidableEq

/-- The control flow of `main` (src/main.cpp lines 361-702) reduced to
its exit behaviour.  Note that the `SDL_GL_CreateContext` result `ctxOk`
is never consulted: line 382 stores it without checking. -/
def mainExit (i : MainInputs) : ExitOutcome :=
  if i.argc < 2 then ExitOutcome.exit 1
  else if i.sdlInitOk = false then ExitOutcome.exit 1
  else if i.windowOk = false then ExitOutcome.exit 1
  else if i.gl3wOk = false then ExitOutcome.thrown
  else if i.loadObjOk = false then ExitOutcome.exit 1
  else if i.shaderOk = false then ExitOutcome.thrown
  else if i.quitEventually then ExitOutcome.exit 0
  else ExitOutcome.runsForever

/-- Modelled from the spec: the condition under which, according to the
claim, the process exits with code 1 — "the positional model-file
argument is missing, ... display/window/context initialization fails, or
... loading the model file fails". -/
def specExit1Cond (i : MainInputs) : Prop :=
  i.argc < 2 ∨ i.sdlInitOk = false ∨ i.windowOk = false ∨
    i.ctxOk = false ∨ i.loadObjOk = false
/-- Setting one pixel of a buffer that is `k` pixels into an overwrite of
`g` by `f` advances the overwrite by one pixel. -/
theorem set_take_drop : ∀ (k : Nat) (f g : List Nat), k < f.length →
    f.length = g.length →
    (f.take k ++ g.drop k).set k (f.getD k 0) =
      f.take (k + 1) ++ g.drop (k + 1)
  | 0, f, g, hf, hfg => by
    cases f with
    | nil => simp at hf
    | cons a f' =>
      cases g with
      | nil => simp at hfg
      | cons b g' => simp
  | (k+1), f, g, hf, hfg => by
    cases f with
    | nil => simp at hf
    | cons a f' =>
      cases g with
      | nil => simp at hfg
      | cons b g' =>
        have ih := set_take_drop k f' g' (by simpa using hf) (by simpa using hfg)
        simpa using ih

/-- The newest completed frame always has the buffer's length. -/
theorem lastFrame_length (n : Nat) (h : List (List Nat))
    (H : ∀ f ∈ h, f.length = n) : (lastFrame n h).length = n := by
  unfold lastFrame
  cases e : h.getLast? with
  | none => simp
  | some g =>
    obtain ⟨hne, hg⟩ := List.mem_getLast?_eq_getLast (Option.mem_def.mpr e)
    subst hg
    simpa using H _ (List.getLast_mem hne)

/-- The freshly constructed relay satisfies the invariant. -/
theorem inv_init (n : Nat) : RelayInv n (initState n) := by
  refine ⟨?_, ?_, ?_, ?_, ?_, ?_, ?_, ?_⟩ <;>
    simp [initState, lastFrame]

/-- Every step of the relay preserves the invariant. -/
theorem inv_step {n : Nat} {s s' : RelayState} {l : Label}
    (hs : RelayInv n s) (st : Step n s l s') : RelayInv n s' := by
  cases st with
  | @render f hq hw hl hf =>
    refine ⟨?_, ?_, ?_, ?_, hs.flagHist, hs.rpcHist, hs.pixLen, hs.histLen⟩
    · intro f' k' h
      simp only [WriterPC.copying.injEq] at h
      obtain ⟨rfl, rfl⟩ := h
      exact ⟨rfl, Nat.zero_le n, hf, by simpa using hs.idleInv (Or.inl hw)⟩
    · intro h; simp at h
    · intro h; simp at h
    · intro h
      have h1 := hs.readerLock h
      rw [hl] at h1
      simp at h1
  | @copy f k hw hk =>
    obtain ⟨hlock, hkn, hflen, hpix⟩ := hs.copyInv f k hw
    refine ⟨?_, ?_, ?_, hs.readerLock, hs.flagHist, hs.rpcHist, ?_, hs.histLen⟩
    · intro f' k' h
      simp only [WriterPC.copying.injEq] at h
      obtain ⟨rfl, rfl⟩ := h
      refine ⟨hlock, hk, hflen, ?_⟩
      have hlen2 : f.length = (lastFrame n s.history).length :=
        hflen.trans (lastFrame_length n s.history hs.histLen).symm
      have := set_take_drop k f (lastFrame n s.history)
        (by rw [hflen]; exact hk) hlen2
      simpa [hpix] using this
    · intro h; simp at h
    · intro h; simp at h
    · simpa using hs.pixLen
  | @publish f hw =>
    obtain ⟨hlock, _, hflen, hpix⟩ := hs.copyInv f n hw
    have hfull : s.pixels = f := by
      have hdrop : (lastFrame n s.history).drop n = [] :=
        List.drop_eq_nil_of_le
          (le_of_eq (lastFrame_length n s.history hs.histLen))
      rw [hpix, hdrop, List.append_nil, ← hflen, List.take_length]
    refine ⟨?_, ?_, ?_, ?_, ?_, ?_, hs.pixLen, ?_⟩
    · intro f' k' h; simp at h
    · intro _
      refine ⟨hlock, ?_⟩
      simp [lastFrame, List.getLast?_concat, hfull]
    · intro h; simp at h
    · exact hs.readerLock
    · intro _; simp
    · intro _; simp
    · intro g hg
      rcases List.mem_append.mp hg with hg | hg
      · exact hs.histLen g hg
      · simp only [List.mem_singleton] at hg; subst hg; exact hflen
  | @unlockW hw =>
    obtain ⟨hlock, hpix⟩ := hs.unlockInv hw
    refine ⟨?_, ?_, ?_, ?_, hs.flagHist, hs.rpcHist, hs.pixLen, hs.histLen⟩
    · intro f' k' h; simp at h
    · intro h; simp at h
    · intro _; exact hpix
    · intro h
      have h1 := hs.readerLock h
      rw [hlock] at h1
      simp at h1
  | @wexit hq hw =>
    refine ⟨?_, ?_, ?_, hs.readerLock, hs.flagHist, hs.rpcHist, hs.pixLen,
      hs.histLen⟩
    · intro f' k' h; simp at h
    · intro h; simp at h
    · intro _; exact hs.idleInv (Or.inl hw)
  | @pollTrue hr hp =>
    refine ⟨hs.copyInv, hs.unlockInv, hs.idleInv, ?_, hs.flagHist, ?_,
      hs.pixLen, hs.histLen⟩
    · intro h; simp at h
    · intro _; exact hs.flagHist hp
  | @pollFalse hr hp => exact hs
  | @mapFb hr hl =>
    refine ⟨?_, ?_, hs.idleInv, ?_, ?_, ?_, hs.pixLen, hs.histLen⟩
    · intro f' k' h
      have h1 := (hs.copyInv f' k' h).1
      rw [hl] at h1
      simp at h1
    · intro h
      have h1 := (hs.unlockInv h).1
      rw [hl] at h1
      simp at h1
    · intro _; rfl
    · intro h; simp at h
    · intro _; exact hs.rpcHist (Or.inl hr)
  | @unmapFb hr =>
    refine ⟨?_, ?_, hs.idleInv, ?_, hs.flagHist, ?_, hs.pixLen, hs.histLen⟩
    · intro f' k' h
      have h1 := (hs.copyInv f' k' h).1
      rw [hs.readerLock hr] at h1
      simp at h1
    · intro h
      have h1 := (hs.unlockInv h).1
      rw [hs.readerLock hr] at h1
      simp at h1
    · intro h; simp at h
    · intro h; simp at h
  | setQuit =>
    exact ⟨hs.copyInv, hs.unlockInv, hs.idleInv, hs.readerLock, hs.flagHist,
      hs.rpcHist, hs.pixLen, hs.histLen⟩

/-- Every reachable relay state satisfies the invariant. -/
theorem reach_inv {n : Nat} {s : RelayState} (h : Reach n s) : RelayInv n s := by
  induction h with
  | init => exact inv_init n
  | step _ st ih => exact inv_step ih st

/-! ### Claims about the Pixel Relay -/

/-- Claim C1 (no tearing): in every reachable state of the interleaved
writer/reader system in which the display thread is between `map_fb` and
`unmap_fb`, the buffer it observes is byte-identical to a single
completed write — namely the newest completed frame (`history` records
exactly the fully completed `memcpy`s, and it is nonempty whenever a map
is held). -/
theorem claim_C1_no_tearing (n : Nat) (s : RelayState)
    (hreach : Reach n s) (hmap : s.rpc = ReaderPC.mapped) :
    s.history ≠ [] ∧ s.history.getLast? = some s.pixels := by
  have inv := reach_inv hreach
  have hne := inv.rpcHist (Or.inr hmap)
  have hlockR := inv.readerLock hmap
  have hpix : s.pixels = lastFrame n s.history := by
    cases hwpc : s.wpc with
    | idle => exact inv.idleInv (Or.inl hwpc)
    | exited => exact inv.idleInv (Or.inr hwpc)
    | copying f k =>
      have h1 := (inv.copyInv f k hwpc).1
      rw [hlockR] at h1
      simp at h1
    | unlocking =>
      have h1 := (inv.unlockInv hwpc).1
      rw [hlockR] at h1
      simp at h1
  refine ⟨hne, ?_⟩
  obtain ⟨g, hg⟩ : ∃ g, s.history.getLast? = some g := by
    cases e : s.history.getLast? with
    | none => exact absurd (List.getLast?_eq_none_iff.mp e) hne
    | some g => exact ⟨g, rfl⟩
  rw [hpix, lastFrame, hg]
  rfl

/-- Witness for C1: a concrete six-step execution on a one-pixel relay —
render frame `[7]`, copy its pixel under the lock, publish, unlock, poll
the flag, `map_fb` — reaches a mapped reader state whose observed buffer
is the completed write `[7]`. -/
theorem claim_C1_no_tearing_witness :
    ([[7]] : List (List Nat)) ≠ [] ∧
      ([[7]] : List (List Nat)).getLast? = some [7] := by
  have h1 := Reach.init (n := 1)
  have h2 := Reach.step h1 (Step.render (f := [7]) rfl rfl rfl rfl)
  have h3 := Reach.step h2 (Step.copy (f := [7]) (k := 0) rfl Nat.zero_lt_one)
  have h4 := Reach.step h3 (Step.publish (f := [7]) rfl)
  have h5 := Reach.step h4 (Step.unlockW rfl)
  have h6 := Reach.step h5 (Step.pollTrue rfl rfl)
  have h7 := Reach.step h6 (Step.mapFb rfl rfl)
  exact claim_C1_no_tearing 1 _ h7 rfl

/-- Claim C2 (new-frame flag lifecycle): the flag flips to `true` only at
the `publish` step, which happens under the writer's lock immediately
after the full-frame copy completes (the frame recorded as completed is
exactly the buffer's contents at that moment); it flips to `false` only
at `map_fb`, which always clears it as the display side begins
consuming; after a write, `hasNewFrame` stays `true` on every execution
that has not yet performed a `map_fb` (so it is observed `true` at least
once, with repeated `true`s permitted when writes outpace reads), and
after a `map_fb` it stays `false` on every execution that has not yet
completed another write. -/
theorem claim_C2_flag_lifecycle :
    (∀ (n : Nat) (s s' : RelayState) (l : Label), Step n s l s' →
      s.new_pixels = false → s'.new_pixels = true → l = Label.publish) ∧
    (∀ (n : Nat) (s s' : RelayState), Reach n s →
      Step n s Label.publish s' →
      s'.new_pixels = true ∧ s.lock = some Owner.writer ∧
        s'.history = s.history ++ [s.pixels]) ∧
    (∀ (n : Nat) (s s' : RelayState) (l : Label), Step n s l s' →
      s.new_pixels = true → s'.new_pixels = false → l = Label.mapFb) ∧
    (∀ (n : Nat) (s s' : RelayState), Step n s Label.mapFb s' →
      s'.new_pixels = false ∧ s'.rpc = ReaderPC.mapped) ∧
    (∀ (n : Nat) (s s' : RelayState),
      StepsExcept n (fun l => l = Label.mapFb) s s' →
      hasNewFrame s = true → hasNewFrame s' = true) ∧
    (∀ (n : Nat) (s s' : RelayState),
      StepsExcept n (fun l => l = Label.publish) s s' →
      hasNewFrame s = false → hasNewFrame s' = false) := by
  refine ⟨?_, ?_, ?_, ?_, ?_, ?_⟩
  · intro n s s' l st h1 h2
    cases st <;> simp_all
  · intro n s s' hreach st
    cases st with
    | @publish f hw =>
      obtain ⟨hlock, _, hflen, _⟩ := (reach_inv hreach).copyInv f n hw
      have hfull : s.pixels = f := by
        have hdrop : (lastFrame n s.history).drop n = [] :=
          List.drop_eq_nil_of_le
            (le_of_eq (lastFrame_length n s.history (reach_inv hreach).histLen))
        have hpix := ((reach_inv hreach).copyInv f n hw).2.2.2
        rw [hpix, hdrop, List.append_nil, ← hflen, List.take_length]
      exact ⟨rfl, hlock, by simp [hfull]⟩
  · intro n s s' l st h1 h2
    cases st <;> simp_all
  · intro n s s' st
    cases st with
    | @mapFb hr hl => exact ⟨rfl, rfl⟩
  · intro n s s' chain h
    induction chain with
    | refl => exact h
    | @tail t' t'' l c st hbad ih =>
      have ht' := ih
      cases st <;> simp_all [hasNewFrame]
  · intro n s s' chain h
    induction chain with
    | refl => exact h
    | @tail t' t'' l c st hbad ih =>
      have ht' := ih
      cases st <;> simp_all [hasNewFrame]

/-- Witness for C2: the `map_fb` clause applied to a concrete `map_fb`
step from a state with a pending new frame clears the flag and leaves
the reader mapped. -/
theorem claim_C2_flag_lifecycle_witness :
    RelayState.new_pixels
        { pixels := [4], new_pixels := false, should_quit := false,
          lock := some Owner.reader, wpc := WriterPC.idle,
          rpc := ReaderPC.mapped, history := [[4]] } = false ∧
      RelayState.rpc
        { pixels := [4], new_pixels := false, should_quit := false,
          lock := some Owner.reader, wpc := WriterPC.idle,
          rpc := ReaderPC.mapped, history := [[4]] } = ReaderPC.mapped := by
  exact claim_C2_flag_lifecycle.2.2.2.1 1
    { pixels := [4], new_pixels := true, should_quit := false,
      lock := none, wpc := WriterPC.idle,
      rpc := ReaderPC.wantMap, history := [[4]] }
    _ (Step.mapFb rfl rfl)

/-- From a copy in progress with `j` pixels still to copy, the render
thread reaches `exited` in exactly `j + 3` of its own steps (finish the
`memcpy`, publish, unlock, observe the flag at the loop head and exit),
provided the shutdown flag is set. -/
theorem writer_exits_from_copying (n : Nat) (f : List Nat) :
    ∀ (j : Nat) (s : RelayState), j ≤ n →
      s.wpc = WriterPC.copying f (n - j) → s.should_quit = true →
      ∃ s', WriterChain n (j + 3) s s' ∧ s'.wpc = WriterPC.exited
  | 0, s, hj, hw, hq => by
    refine ⟨_, WriterChain.head (Step.publish (by simpa using hw)) rfl
      (WriterChain.head (Step.unlockW rfl) rfl
        (WriterChain.head (Step.wexit hq rfl) rfl
          (WriterChain.refl _))), rfl⟩
  | (j+1), s, hj, hw, hq => by
    have hk : n - (j+1) < n := by omega
    have hstep := Step.copy (s := s) (f := f) (k := n - (j+1)) hw hk
    have hw2 : WriterPC.copying f (n - (j+1) + 1) = WriterPC.copying f (n - j) := by
      congr 1
      omega
    obtain ⟨s', hc, he⟩ := writer_exits_from_copying n f j
      { s with pixels := s.pixels.set (n - (j+1)) (f.getD (n - (j+1)) 0),
               wpc := WriterPC.copying f (n - (j+1) + 1) }
      (by omega) hw2 hq
    exact ⟨s', WriterChain.head hstep rfl hc, he⟩

/-- Claim C3 (shutdown termination): render-thread steps taken anywhere
but the loop head are insensitive to the shutdown flag (the flag is
re-checked only at loop boundaries, never mid-render); no step ever
clears the flag once set; and from any reachable state with the flag
set — as stored by `~AsyncRenderer` before `render_thread.join()` — the
render thread exits its loop within at most one further complete
iteration (at most `n + 3` of its own steps), so the destructor's join
returns. -/
theorem claim_C3_shutdown_termination :
    (∀ (n : Nat) (s s' : RelayState) (l : Label) (b : Bool),
      Step n s l s' → isWriterLabel l = true → s.wpc ≠ WriterPC.idle →
      Step n { s with should_quit := b } l { s' with should_quit := b }) ∧
    (∀ (n : Nat) (s s' : RelayState) (l : Label), Step n s l s' →
      s.should_quit = true → s'.should_quit = true) ∧
    (∀ (n : Nat) (s : RelayState), Reach n s → s.should_quit = true →
      ∃ (k : Nat) (s' : RelayState), k ≤ n + 3 ∧ WriterChain n k s s' ∧
        s'.wpc = WriterPC.exited) := by
  refine ⟨?_, ?_, ?_⟩
  · intro n s s' l b st hwl hnotidle
    cases st with
    | render hq hw hl hf => exact absurd hw hnotidle
    | copy hw hk => exact Step.copy hw hk
    | publish hw => exact Step.publish hw
    | unlockW hw => exact Step.unlockW hw
    | wexit hq hw => exact absurd hw hnotidle
    | pollTrue hr hp => simp [isWriterLabel] at hwl
    | pollFalse hr hp => simp [isWriterLabel] at hwl
    | mapFb hr hl => simp [isWriterLabel] at hwl
    | unmapFb hr => simp [isWriterLabel] at hwl
    | setQuit => simp [isWriterLabel] at hwl
  · intro n s s' l st hq
    cases st <;> simp_all
  · intro n s hreach hq
    cases hwpc : s.wpc with
    | exited => exact ⟨0, s, by omega, WriterChain.refl s, hwpc⟩
    | idle =>
      exact ⟨1, _, by omega,
        WriterChain.head (Step.wexit hq hwpc) rfl (WriterChain.refl _), rfl⟩
    | unlocking =>
      exact ⟨2, _, by omega,
        WriterChain.head (Step.unlockW hwpc) rfl
          (WriterChain.head (Step.wexit hq rfl) rfl (WriterChain.refl _)),
        rfl⟩
    | copying f k =>
      have hkn := ((reach_inv hreach).copyInv f k hwpc).2.1
      have hw2 : s.wpc = WriterPC.copying f (n - (n - k)) := by
        rw [hwpc]
        congr 1
        omega
      obtain ⟨s', hc, he⟩ :=
        writer_exits_from_copying n f (n - k) s (by omega) hw2 hq
      exact ⟨(n - k) + 3, s', by omega, hc, he⟩

/-- Witness for C3: from the reachable one-pixel-relay state obtained by
storing `true` into `should_quit` right after construction, the render
thread exits within the bound. -/
theorem claim_C3_shutdown_termination_witness :
    ∃ (k : Nat) (s' : RelayState), k ≤ 1 + 3 ∧
      WriterChain 1 k
        { pixels := [0], new_pixels := false, should_quit := true,
          lock := none, wpc := WriterPC.idle, rpc := ReaderPC.outside,
          history := [] } s' ∧
      s'.wpc = WriterPC.exited := by
  have h1 := Reach.step (Reach.init (n := 1)) (Step.setQuit (s := initState 1))
  exact claim_C3_shutdown_termination.2.2 1 _ h1 rfl

/-- Claim C9 (reader-side purity): `map_fb`, `unmap_fb` and the lock-free
polls of `new_pixels` never change the relay buffer's contents; the only
step that changes the buffer at all is the render loop's per-pixel
`memcpy` step, and in every reachable state that step runs with the
render thread holding the mutex. -/
theorem claim_C9_reader_ops_pure :
    (∀ (n : Nat) (s s' : RelayState) (l : Label), Step n s l s' →
      (l = Label.mapFb ∨ l = Label.unmapFb ∨ l = Label.pollTrue ∨
        l = Label.pollFalse) →
      s'.pixels = s.pixels) ∧
    (∀ (n : Nat) (s s' : RelayState) (l : Label), Step n s l s' →
      s'.pixels ≠ s.pixels → l = Label.copy) ∧
    (∀ (n : Nat) (s s' : RelayState), Reach n s →
      Step n s Label.copy s' → s.lock = some Owner.writer) := by
  refine ⟨?_, ?_, ?_⟩
  · intro n s s' l st hl
    cases st <;> simp_all
  · intro n s s' l st hne
    cases st <;> simp_all
  · intro n s s' hreach st
    cases st with
    | copy hw hk => exact ((reach_inv hreach).copyInv _ _ hw).1

/-- Witness for C9: a concrete `unmap_fb` step leaves the buffer `[3]`
untouched. -/
theorem claim_C9_reader_ops_pure_witness :
    RelayState.pixels
        { pixels := [3], new_pixels := false, should_quit := false,
          lock := none, wpc := WriterPC.idle, rpc := ReaderPC.outside,
          history := [[3]] } = [3] := by
  exact claim_C9_reader_ops_pure.1 1
    { pixels := [3], new_pixels := false, should_quit := false,
      lock := some Owner.reader, wpc := WriterPC.idle,
      rpc := ReaderPC.mapped, history := [[3]] }
    _ Label.unmapFb (Step.unmapFb rfl) (Or.inr (Or.inl rfl))

/-- Claim C10 (construction invariant): right after construction both
atomics are `false` and the buffer holds exactly
`PANORAMIC_WIDTH * PANORAMIC_HEIGHT` (which is `2 * height * height`)
zero pixels; no operation ever changes the buffer's size; and
`hasNewFrame` stays `false` on every execution from the initial state
that contains no completed background write. -/
theorem claim_C10_construction_invariant :
    PANORAMIC_WIDTH = 2 * PANORAMIC_HEIGHT ∧
    PANORAMIC_WIDTH * PANORAMIC_HEIGHT =
      2 * (PANORAMIC_HEIGHT * PANORAMIC_HEIGHT) ∧
    (∀ n : Nat, (initState n).should_quit = false ∧
      (initState n).new_pixels = false ∧
      (initState n).pixels = List.replicate n 0 ∧
      hasNewFrame (initState n) = false) ∧
    (∀ (n : Nat) (s : RelayState), Reach n s → s.pixels.length = n) ∧
    (∀ (n : Nat) (s : RelayState),
      StepsExcept n (fun l => l = Label.publish) (initState n) s →
      hasNewFrame s = false) := by
  refine ⟨rfl, ?_, ?_, ?_, ?_⟩
  · rw [PANORAMIC_WIDTH]
    ring
  · intro n
    exact ⟨rfl, rfl, rfl, rfl⟩
  · intro n s hreach
    exact (reach_inv hreach).pixLen
  · intro n s chain
    induction chain with
    | refl => rfl
    | @tail t' t'' l c st hbad ih =>
      cases st <;> simp_all [hasNewFrame]

/-- Witness for C10: the buffer-size clause applied to the reachable
initial one-pixel state. -/
theorem claim_C10_construction_invariant_witness :
    (RelayState.pixels (initState 1)).length = 1 := by
  exact claim_C10_construction_invariant.2.2.2.1 1 (initState 1) Reach.init

/-! ### Claim about the scene-graph render loop -/

/-- Claim C6 (scene-graph render-loop iteration contract): in each
iteration the `verify`-then-`commit` traversals run exactly when the
renderer subtree's children-last-modified stamp exceeds the last
recorded commit stamp or `once` is still unset (first iteration); the
iteration then records a fresh commit timestamp, runs the `render`
traversal, maps the frame buffer, copies its full contents into the
relay between the lock acquisition and release, sets the new-frame
flag, unmaps — in exactly that order — and the loop stops as soon as
the shutdown flag is observed `true` at the loop head, continuing
otherwise. -/
theorem claim_C6_sg_loop_contract :
    (∀ (frame : List Nat) (s : SgState),
      ((sgRunIter frame s).trace =
          s.trace ++ [SgAction.verifyT, SgAction.commitT, SgAction.renderT,
            SgAction.mapT, SgAction.lockT, SgAction.memcpyT, SgAction.flagT,
            SgAction.unmapT, SgAction.unlockT] ↔
        (s.childrenLastModified > s.lastRTime ∨ s.once = false)) ∧
      (¬ (s.childrenLastModified > s.lastRTime ∨ s.once = false) →
        (sgRunIter frame s).trace =
          s.trace ++ [SgAction.renderT, SgAction.mapT, SgAction.lockT,
            SgAction.memcpyT, SgAction.flagT, SgAction.unmapT,
            SgAction.unlockT]) ∧
      (sgRunIter frame s).lastRTime = sgTimeStamp s.clock ∧
      (sgRunIter frame s).once = true ∧
      (sgRunIter frame s).pixels = frame ∧
      (sgRunIter frame s).newPixels = true) ∧
    (∀ (frames : List (List Nat)) (s : SgState), s.shouldQuit = true →
      sgRun frames s = s) ∧
    (∀ (f : List Nat) (rest : List (List Nat)) (s : SgState),
      s.shouldQuit = false →
      sgRun (f :: rest) s = sgRun rest (sgRunIter f s)) := by
  refine ⟨?_, ?_, ?_⟩
  · intro frame s
    by_cases hc : s.childrenLastModified > s.lastRTime ∨ s.once = false
    · refine ⟨?_, fun h => absurd hc h, rfl, rfl, rfl, rfl⟩
      simp [sgRunIter, sgCommitActions, hc]
    · refine ⟨?_, ?_, rfl, rfl, rfl, rfl⟩
      · simp [sgRunIter, sgCommitActions, hc]
      · intro _
        simp [sgRunIter, sgCommitActions, hc]
  · intro frames s hq
    cases frames with
    | nil => rfl
    | cons f rest => simp [sgRun, hq]
  · intro f rest s hq
    simp [sgRun, hq]

/-- Witness for C6: the quit clause applied to a concrete quitting state
and a nonempty frame list — the loop performs no further iteration. -/
theorem claim_C6_sg_loop_contract_witness :
    sgRun [[5]]
        { shouldQuit := true, childrenLastModified := 0, lastRTime := 0,
          once := false, clock := 0, pixels := [0], newPixels := false,
          trace := [] } =
      { shouldQuit := true, childrenLastModified := 0, lastRTime := 0,
        once := false, clock := 0, pixels := [0], newPixels := false,
        trace := [] } := by
  exact claim_C6_sg_loop_contract.2.1 [[5]]
    { shouldQuit := true, childrenLastModified := 0, lastRTime := 0,
      once := false, clock := 0, pixels := [0], newPixels := false,
      trace := [] } rfl

/-! ### Claim about the display loop's camera reversion -/

/-- The texture-upload stage never touches the camera selection. -/
theorem uploadCheck_activeCam (s : DispState) :
    (uploadCheck s).activeCam = s.activeCam := by
  unfold uploadCheck
  split <;> rfl

/-- The texture-upload stage never touches the interactive flag. -/
theorem uploadCheck_interactive (s : DispState) :
    (uploadCheck s).interactiveCamera = s.interactiveCamera := by
  unfold uploadCheck
  split <;> rfl

/-- The texture-upload stage never touches the modified mark. -/
theorem uploadCheck_panoModified (s : DispState) :
    (uploadCheck s).panoModified = s.panoModified := by
  unfold uploadCheck
  split <;> rfl

/-- Counterexample to claim C5 as stated: an iteration of the display
loop in which interactive mode is active, no movement event occurs and
no movement key is held (the polled event list is empty), yet the active
camera does **not** revert to the panoramic camera, interactive mode is
**not** cleared and the panoramic camera is **not** marked modified —
because the code's actual guard `lastRenderTime > lastUpdateTime + 5`
(src/main.cpp line 653) is false in this state (`3 > 1 + 5` fails). -/
theorem claim_C5_counterexample :
    (dispIter []
        { quit := false, moved := false, interactiveCamera := true,
          activeCam := CamSel.perspective,
          perspPos := ⟨21, 242, -49⟩, perspDir := ⟨0, 0, 1⟩,
          panPos := ⟨21, 242, -49⟩, panoModified := false,
          lastRenderTime := 3, lastUpdateTime := 1, clock := 10,
          newPixels := false }).moved = false ∧
    (dispIter []
        { quit := false, moved := false, interactiveCamera := true,
          activeCam := CamSel.perspective,
          perspPos := ⟨21, 242, -49⟩, perspDir := ⟨0, 0, 1⟩,
          panPos := ⟨21, 242, -49⟩, panoModified := false,
          lastRenderTime := 3, lastUpdateTime := 1, clock := 10,
          newPixels := false }).activeCam = CamSel.perspective ∧
    (dispIter []
        { quit := false, moved := false, interactiveCamera := true,
          activeCam := CamSel.perspective,
          perspPos := ⟨21, 242, -49⟩, perspDir := ⟨0, 0, 1⟩,
          panPos := ⟨21, 242, -49⟩, panoModified := false,
          lastRenderTime := 3, lastUpdateTime := 1, clock := 10,
          newPixels := false }).interactiveCamera = true ∧
    (dispIter []
        { quit := false, moved := false, interactiveCamera := true,
          activeCam := CamSel.perspective,
          perspPos := ⟨21, 242, -49⟩, perspDir := ⟨0, 0, 1⟩,
          panPos := ⟨21, 242, -49⟩, panoModified := false,
          lastRenderTime := 3, lastUpdateTime := 1, clock := 10,
          newPixels := false }).panoModified = false := by
  decide

/-- Claim C5 as amended: in each display-loop iteration the camera
reverts from Perspective to Panoramic exactly when, after event polling,
no movement occurred this iteration, interactive mode is active, **and**
the last texture upload's timestamp exceeds the last movement's
timestamp by more than 5 (`lastRenderTime > lastUpdateTime + 5`) — not
merely when no movement key is held; when it reverts it also marks the
panoramic camera's configuration modified (forcing a recommit) and
clears interactive mode, and otherwise the camera selection, interactive
flag and modified mark are left exactly as event polling produced
them. -/
theorem claim_C5_camera_reversion (events : List SdlEvent) (s : DispState) :
    ((dispIter events s).activeCam =
      (if revertCond (pollEvents events { s with moved := false })
       then CamSel.panoramic
       else (pollEvents events { s with moved := false }).activeCam)) ∧
    ((dispIter events s).interactiveCamera =
      (if revertCond (pollEvents events { s with moved := false })
       then false
       else (pollEvents events { s with moved := false }).interactiveCamera)) ∧
    ((dispIter events s).panoModified =
      (if revertCond (pollEvents events { s with moved := false })
       then true
       else (pollEvents events { s with moved := false }).panoModified)) := by
  unfold dispIter
  rw [uploadCheck_activeCam, uploadCheck_interactive, uploadCheck_panoModified]
  unfold revertCheck
  by_cases h : revertCond (pollEvents events { s with moved := false }) <;>
    simp [h]

/-! ### Claim about the texture-sampling formula -/

/-- Counterexample to claim C4 as stated: the GLFW desktop variant's
fragment shader (src/unnamed/part_000 lines 81-82) does **not** compute
the spec's formula.  At the normalized direction `d = (0, 0, 1)` its `v`
coordinate is `acos(d.z)/pi = acos(1)/pi = 0`, while the spec's formula
gives `v = acos(d.y)/pi = acos(0)/pi = 1/2`. -/
theorem claim_C4_counterexample :
    fsrcUV_glfw ((0 : ℝ), (0 : ℝ), (1 : ℝ)) ≠
      specSamplingUV ((0 : ℝ), (0 : ℝ), (1 : ℝ)) := by
  intro h
  have h2 := congrArg Prod.snd h
  simp only [fsrcUV_glfw, specSamplingUV] at h2
  rw [Real.arccos_one, Real.arccos_zero, zero_div] at h2
  have hhalf : Real.pi / 2 / Real.pi = 1 / 2 := by
    rw [div_div, mul_comm, ← div_div, div_self Real.pi_ne_zero]
  rw [hhalf] at h2
  norm_num at h2

/-- Claim C4 as amended: the scene-graph viewer (src/main.cpp) and the
SDL/OpenVR viewer (src/unnamed/part_001) both compute exactly the spec's
texture coordinates `u = (atan2(d.z, d.x) + pi/2) / (2 pi)`,
`v = acos(d.y) / pi` for every direction `d`; the GLFW desktop variant
(src/unnamed/part_000) instead applies `atan2(d.y, d.x)` and
`acos(d.z)`, as the counterexample shows. -/
theorem claim_C4_texture_sampling (d : ℝ × ℝ × ℝ) :
    fsrcUV_sg d = specSamplingUV d ∧ fsrcUV_vr d = specSamplingUV d :=
  ⟨rfl, rfl⟩

/-! ### Claim about command-line override coercion -/

/-- Claim C7 (CLI node-override coercion): the coercions are attempted in
the order string, float, int, bool, 3-float-vector, 2-int-vector; running
the whole cascade of exception-swallowing `try` blocks is equivalent to
taking the first successful coercion (later attempts never overwrite an
earlier success, because `valueAs<T>` only succeeds on the node's one
declared type), and the cascade reports no error message whatsoever, in
particular when every coercion fails (a node of any other type is left
untouched with an empty error list). -/
theorem claim_C7_cli_coercion :
    coerceAttempts = [CoerceType.tString, CoerceType.tFloat, CoerceType.tInt,
      CoerceType.tBool, CoerceType.tVec3f, CoerceType.tVec2i] ∧
    (∀ (p : ParsedValue) (node : NodeValue),
      applyOverride p node =
        ((coerceAttempts.findSome? (fun t => tryCoerce t p node)).getD node,
          [])) ∧
    (∀ p : ParsedValue,
      applyOverride p NodeValue.vOther = (NodeValue.vOther, [])) := by
  refine ⟨rfl, ?_, ?_⟩
  · intro p node
    cases node <;> rfl
  · intro p
    rfl

/-! ### Claim about exit codes -/

/-- Counterexample to claim C8 as stated: a run in which
`SDL_GL_CreateContext` fails (so "display/window/context initialization
fails" holds and the claim demands exit code 1) but everything else
succeeds and a quit event arrives: the code never checks the context
result (src/main.cpp line 382), so the process runs normally and exits
with code 0, not 1. -/
theorem claim_C8_counterexample :
    specExit1Cond
        { argc := 2, sdlInitOk := true, windowOk := true, ctxOk := false,
          gl3wOk := true, loadObjOk := true, shaderOk := true,
          quitEventually := true } ∧
      mainExit
          { argc := 2, sdlInitOk := true, windowOk := true, ctxOk := false,
            gl3wOk := true, loadObjOk := true, shaderOk := true,
            quitEventually := true } = ExitOutcome.exit 0 := by
  exact ⟨Or.inr (Or.inr (Or.inr (Or.inl rfl))), rfl⟩

/-- Claim C8 as amended: the process exits with code 1 exactly when the
positional argument is missing (`argc < 2`), or SDL video initialization
fails, or window creation fails, or — initialization and the GL loader
having succeeded — loading the model file fails; it exits with code 0
exactly on a normal quit (window close or Escape) with every startup
step succeeding.  A failed `SDL_GL_CreateContext` is never checked and
does not by itself produce exit code 1, and `gl3wInit` or shader
failures abort via an uncaught exception rather than exit code 1. -/
theorem claim_C8_exit_codes (i : MainInputs) :
    (mainExit i = ExitOutcome.exit 1 ↔
      (i.argc < 2 ∨
        (2 ≤ i.argc ∧ i.sdlInitOk = false) ∨
        (2 ≤ i.argc ∧ i.sdlInitOk = true ∧ i.windowOk = false) ∨
        (2 ≤ i.argc ∧ i.sdlInitOk = true ∧ i.windowOk = true ∧
          i.gl3wOk = true ∧ i.loadObjOk = false))) ∧
    (mainExit i = ExitOutcome.exit 0 ↔
      (2 ≤ i.argc ∧ i.sdlInitOk = true ∧ i.windowOk = true ∧
        i.gl3wOk = true ∧ i.loadObjOk = true ∧ i.shaderOk = true ∧
        i.quitEventually = true)) := by
  obtain ⟨argc, sdl, win, ctx, gl3w, load, sh, q⟩ := i
  rcases Nat.lt_or_ge argc 2 with h | h
  · have h2 : ¬ 2 ≤ argc := by omega
    cases sdl <;> cases win <;> cases gl3w <;> cases load <;> cases sh <;>
      cases q <;> simp_all [mainExit]
  · have h2 : ¬ argc < 2 := by omega
    cases sdl <;> cases win <;> cases gl3w <;> cases load <;> cases sh <;>
      cases q <;> (simp only [mainExit]; rw [if_neg h2]) <;> simp_all
